import Mathlib

/-!
Shallow embedding of the account-lockout logic of the Gideon-Finance
authentication layer.

The embedded code:
* `Auth.handleSubmit`      — the sign-in handler of `src/pages/Auth.tsx`;
* `AuthAlt.handleSubmit`   — the sign-in handler of the unnamed variant of the
                             Auth page present in the repository (it performs a
                             lock check before calling the auth service and, on
                             success, resets only the counter);
* `ResetPassword.handleSubmit` — the handler of `src/pages/ResetPassword.tsx`.

External collaborators (the hosted auth service, the zod schema parsers) are
modelled as oracle inputs: the outcome of `signIn`/`updateUser` is a parameter
of the handler, as are the boolean outcomes of the two schema `parse` calls.
The relational store (the `users` and `profiles` tables accessed through the
query client) is modelled explicitly: `.select(...).eq(...).single()` returns
the row when exactly one row matches, and `.update(...).eq(...)` rewrites the
named columns of every matching row.  Write fallibility is modelled by a
`writeOk` parameter: when it is `false` the store is left unchanged (the code
never inspects the result of an update).
-/

namespace GideonFinance

/-- A row of the `users` table (only the columns the sign-in flow touches). -/
structure UserRow where
  id : Nat
  email : String
deriving DecidableEq

/-- A row of the `profiles` table: the two lockout columns plus the other
columns the repository stores there (`id`, `user_id`, `email`, `name`,
`avatar_url`).  `failed_login_attempts` is nullable in the store, hence
`Option Nat`; the code reads it as `profile.failed_login_attempts || 0`. -/
structure Profile where
  id : Nat
  user_id : Nat
  email : String
  name : String
  avatar_url : String
  failed_login_attempts : Option Nat
  account_locked : Bool
deriving DecidableEq

/-- The relational store visible to the embedded handlers. -/
structure DB where
  users : List UserRow
  profiles : List Profile
deriving DecidableEq

/-- `.select(...).eq(...).single()`: the query succeeds (data non-null)
exactly when one row matches the filter. -/
def selectSingle {α : Type} (p : α → Bool) (l : List α) : Option α :=
  match l.filter p with
  | [x] => some x
  | _ => none

/-- `supabase.from("users").select("id").eq("email", email).single()`. -/
def findUserByEmail (db : DB) (email : String) : Option UserRow :=
  selectSingle (fun u => u.email == email) db.users

/-- `supabase.from("profiles").select(...).eq("user_id", uid).single()`. -/
def findProfileByUserId (db : DB) (uid : Nat) : Option Profile :=
  selectSingle (fun p => p.user_id == uid) db.profiles

/-- `supabase.from("profiles").select(...).eq("email", email).single()`
(used by the unnamed Auth variant). -/
def findProfileByEmail (db : DB) (email : String) : Option Profile :=
  selectSingle (fun p => p.email == email) db.profiles

/-- `supabase.from("profiles").update({failed_login_attempts, account_locked})
.eq("user_id", uid)`: rewrites the two lockout columns of every matching row,
leaving every other column and every other row unchanged. -/
def updateProfileByUserId (db : DB) (uid : Nat) (attempts : Option Nat)
    (locked : Bool) : DB :=
  { db with
    profiles := db.profiles.map (fun p =>
      if p.user_id == uid then
        { p with failed_login_attempts := attempts, account_locked := locked }
      else p) }

/-- Same update keyed by email (used by the unnamed Auth variant). -/
def updateProfileByEmail (db : DB) (email : String) (attempts : Option Nat)
    (locked : Bool) : DB :=
  { db with
    profiles := db.profiles.map (fun p =>
      if p.email == email then
        { p with failed_login_attempts := attempts, account_locked := locked }
      else p) }

/-- `update({failed_login_attempts}).eq("email", email)`: the success-path
update of the unnamed Auth variant touches only the counter column. -/
def updateAttemptsByEmail (db : DB) (email : String) (attempts : Option Nat) :
    DB :=
  { db with
    profiles := db.profiles.map (fun p =>
      if p.email == email then
        { p with failed_login_attempts := attempts }
      else p) }

/-- Outcome of the external credential verification (`signIn`) together with
what `supabase.auth.getUser()` would report afterwards on the success path:
`ok (some uid)` is a successful sign-in whose `getUser` returns the user,
`ok none` a successful sign-in where `getUser` yields no user. -/
inductive AuthResult where
  | ok (uid : Option Nat)
  | invalidCredentials
  | otherError (message : String)
deriving DecidableEq

/-- The user-visible outcome of a sign-in attempt (which toast is shown, or
that none is). -/
inductive Msg where
  | invalidInput
  | accountLocked
  | incorrectRemaining (remaining : Nat)
  | incorrectGeneric
  | silent
  | otherError (message : String)
  | success
deriving DecidableEq

/-- Result of one run of a sign-in handler: the store afterwards, the message
shown, and how many external calls of each kind were made (`verifyCalls` =
`signIn` invocations, `userReads` = `users`-table selects, `profileReads` =
`profiles`-table selects, `profileWrites` = `profiles`-table update
attempts). -/
structure SignInOutcome where
  db : DB
  msg : Msg
  verifyCalls : Nat
  userReads : Nat
  profileReads : Nat
  profileWrites : Nat
deriving DecidableEq

namespace Auth

/-- `handleSubmit` of `src/pages/Auth.tsx`.  `emailValid` and `passwordValid`
are the outcomes of `emailSchema.parse` and `passwordSchema.parse`; `auth` is
the outcome of `signIn` (and `getUser`); `writeOk` tells whether the
profile update, if attempted, lands in the store. -/
def handleSubmit (db : DB) (email : String) (emailValid passwordValid : Bool)
    (auth : AuthResult) (writeOk : Bool) : SignInOutcome :=
  if !(emailValid && passwordValid) then
    ⟨db, Msg.invalidInput, 0, 0, 0, 0⟩
  else
    match auth with
    | AuthResult.invalidCredentials =>
      match findUserByEmail db email with
      | none => ⟨db, Msg.incorrectGeneric, 1, 1, 0, 0⟩
      | some u =>
        match findProfileByUserId db u.id with
        | none => ⟨db, Msg.silent, 1, 1, 1, 0⟩
        | some p =>
          let newAttempts := p.failed_login_attempts.getD 0 + 1
          let locked := p.account_locked || decide (5 ≤ newAttempts)
          let db2 := if writeOk then
              updateProfileByUserId db u.id (some newAttempts) locked
            else db
          if locked then
            ⟨db2, Msg.accountLocked, 1, 1, 1, 1⟩
          else
            ⟨db2, Msg.incorrectRemaining (5 - newAttempts), 1, 1, 1, 1⟩
    | AuthResult.otherError m => ⟨db, Msg.otherError m, 1, 0, 0, 0⟩
    | AuthResult.ok (some uid) =>
      let db2 := if writeOk then
          updateProfileByUserId db uid (some 0) false
        else db
      ⟨db2, Msg.success, 1, 0, 0, 1⟩
    | AuthResult.ok none => ⟨db, Msg.success, 1, 0, 0, 0⟩

end Auth

namespace AuthAlt

/-- `handleSubmit` of the unnamed Auth-page variant: it reads the profile by
email first, rejects a locked account before calling `signIn`, updates the
profile by email on failure, and on success resets only the counter. -/
def handleSubmit (db : DB) (email : String) (emailValid passwordValid : Bool)
    (auth : AuthResult) (writeOk : Bool) : SignInOutcome :=
  if !(emailValid && passwordValid) then
    ⟨db, Msg.invalidInput, 0, 0, 0, 0⟩
  else
    match findProfileByEmail db email with
    | some p =>
      if p.account_locked then
        ⟨db, Msg.accountLocked, 0, 0, 1, 0⟩
      else
        match auth with
        | AuthResult.invalidCredentials =>
          let newAttempts := p.failed_login_attempts.getD 0 + 1
          let locked := p.account_locked || decide (5 ≤ newAttempts)
          let db2 := if writeOk then
              updateProfileByEmail db email (some newAttempts) locked
            else db
          if locked then
            ⟨db2, Msg.accountLocked, 1, 0, 1, 1⟩
          else
            ⟨db2, Msg.incorrectRemaining (5 - newAttempts), 1, 0, 1, 1⟩
        | AuthResult.otherError m => ⟨db, Msg.otherError m, 1, 0, 1, 0⟩
        | AuthResult.ok _ =>
          let db2 := if writeOk then
              updateAttemptsByEmail db email (some 0)
            else db
          ⟨db2, Msg.success, 1, 0, 1, 1⟩
    | none =>
      match auth with
      | AuthResult.invalidCredentials => ⟨db, Msg.incorrectGeneric, 1, 0, 1, 0⟩
      | AuthResult.otherError m => ⟨db, Msg.otherError m, 1, 0, 1, 0⟩
      | AuthResult.ok _ => ⟨db, Msg.success, 1, 0, 1, 0⟩

end AuthAlt

/-- Outcome of `supabase.auth.updateUser({password})`: an error, or success
carrying `data.user` (possibly absent). -/
inductive UpdateUserResult where
  | err
  | ok (uid : Option Nat)
deriving DecidableEq

/-- The user-visible outcome of a password-reset submission. -/
inductive ResetMsg where
  | passwordMismatch
  | invalidInput
  | updateFailed
  | success
deriving DecidableEq

/-- Result of one run of the reset handler. -/
structure ResetOutcome where
  db : DB
  msg : ResetMsg
  updateUserCalls : Nat
  profileWrites : Nat
deriving DecidableEq

namespace ResetPassword

/-- `handleSubmit` of `src/pages/ResetPassword.tsx`.  `passwordValid` is the
outcome of `passwordSchema.parse`; `upd` the outcome of
`supabase.auth.updateUser`. -/
def handleSubmit (db : DB) (password confirmPassword : String)
    (passwordValid : Bool) (upd : UpdateUserResult) : ResetOutcome :=
  if password ≠ confirmPassword then
    ⟨db, ResetMsg.passwordMismatch, 0, 0⟩
  else if !passwordValid then
    ⟨db, ResetMsg.invalidInput, 0, 0⟩
  else
    match upd with
    | UpdateUserResult.err => ⟨db, ResetMsg.updateFailed, 1, 0⟩
    | UpdateUserResult.ok none => ⟨db, ResetMsg.success, 1, 0⟩
    | UpdateUserResult.ok (some uid) =>
      ⟨updateProfileByUserId db uid (some 0) false, ResetMsg.success, 1, 1⟩

end ResetPassword

/-- A store holding a single account, user id 10, email `a@x.com`, with the
given lockout state. -/
def oneAccountDB (cnt : Option Nat) (lk : Bool) : DB :=
  ⟨[⟨10, "a@x.com"⟩], [⟨1, 10, "a@x.com", "Ana", "", cnt, lk⟩]⟩

/-- A store with a `users` row for `a@x.com` but no `profiles` row. -/
def userOnlyDB : DB := ⟨[⟨10, "a@x.com"⟩], []⟩

/-- A store holding two accounts, to exercise the frame condition. -/
def twoAccountDB : DB :=
  ⟨[⟨10, "a@x.com"⟩, ⟨20, "b@x.com"⟩],
    [⟨1, 10, "a@x.com", "Ana", "", some 1, false⟩,
      ⟨2, 20, "b@x.com", "Bia", "", some 2, false⟩]⟩

/-- The store after `n` consecutive failed sign-in attempts on the single
account, starting from counter 0, unlocked. -/
def failN : Nat → DB
  | 0 => oneAccountDB (some 0) false
  | n + 1 =>
    (Auth.handleSubmit (failN n) "a@x.com" true true
      AuthResult.invalidCredentials true).db

/-- Frame relation between a stored profile row before and after one handler
run: every column other than the two lockout columns is unchanged, and rows of
accounts other than the targeted one (`tid`) are unchanged entirely. -/
def onlyLockColumnsChanged (tid : Nat) (o q : Profile) : Prop :=
  q.id = o.id ∧ q.user_id = o.user_id ∧ q.email = o.email ∧ q.name = o.name
  ∧ q.avatar_url = o.avatar_url ∧ (o.user_id ≠ tid → q = o)

/-! ### Helper lemmas about the store primitives -/

theorem selectSingle_eq_some {α : Type} {p : α → Bool} {l : List α} {x : α} :
    selectSingle p l = some x ↔ l.filter p = [x] := by
  unfold selectSingle
  cases h : l.filter p with
  | nil => simp
  | cons a t =>
    cases t with
    | nil => simp
    | cons b t2 => simp

theorem filter_map_comm {α : Type} (f : α → α) (pred : α → Bool)
    (h : ∀ x, pred (f x) = pred x) (l : List α) :
    (l.map f).filter pred = (l.filter pred).map f := by
  induction l with
  | nil => rfl
  | cons a t ih =>
    simp only [List.map_cons, List.filter_cons, h a]
    cases pred a <;> simp [ih]

theorem updateProfileByUserId_keeps_uid (uid : Nat) (a : Option Nat)
    (lk : Bool) (x : Profile) :
    ((if x.user_id == uid then
        { x with failed_login_attempts := a, account_locked := lk }
      else x) : Profile).user_id = x.user_id := by
  by_cases h : x.user_id == uid <;> simp [h]

/-- After the keyed update, the single row found under the same key is the old
row with the two lockout columns rewritten. -/
theorem findProfile_after_update {db : DB} {uid : Nat} {p : Profile}
    (hp : findProfileByUserId db uid = some p) (a : Option Nat) (lk : Bool) :
    findProfileByUserId (updateProfileByUserId db uid a lk) uid =
      some { p with failed_login_attempts := a, account_locked := lk } := by
  have hfil : db.profiles.filter (fun q => q.user_id == uid) = [p] :=
    selectSingle_eq_some.mp hp
  have hpred : ∀ x : Profile,
      (((if x.user_id == uid then
          { x with failed_login_attempts := a, account_locked := lk }
        else x) : Profile).user_id == uid) = (x.user_id == uid) := by
    intro x
    by_cases h : x.user_id == uid <;> simp [h]
  have hpuid : (p.user_id == uid) = true := by
    have : p ∈ db.profiles.filter (fun q => q.user_id == uid) := by
      rw [hfil]; exact List.mem_singleton.mpr rfl
    exact (List.mem_filter.mp this).2
  unfold findProfileByUserId updateProfileByUserId
  rw [selectSingle_eq_some]
  simp only []
  rw [filter_map_comm _ _ hpred, hfil, List.map_cons, List.map_nil,
    if_pos hpuid]

/-- The only row of the store matching the key of a successful
`.single()` select is the returned row itself. -/
theorem eq_of_matches_found {db : DB} {uid : Nat} {p x : Profile}
    (hp : findProfileByUserId db uid = some p) (hx : x ∈ db.profiles)
    (hxid : x.user_id == uid) : x = p := by
  have hfil : db.profiles.filter (fun q => q.user_id == uid) = [p] :=
    selectSingle_eq_some.mp hp
  have : x ∈ db.profiles.filter (fun q => q.user_id == uid) :=
    List.mem_filter.mpr ⟨hx, hxid⟩
  rw [hfil] at this
  exact List.mem_singleton.mp this

/-! ### Branch-reduction lemmas for the sign-in handler -/

/-- On the invalid-credentials path with both records found, the store update
attempted by `handleSubmit` writes the incremented counter and the possibly
raised lock flag. -/
theorem auth_invalid_found_db {db : DB} {email : String} {u : UserRow}
    {p : Profile} (wk : Bool)
    (hu : findUserByEmail db email = some u)
    (hp : findProfileByUserId db u.id = some p) :
    (Auth.handleSubmit db email true true AuthResult.invalidCredentials wk).db
      = (if wk then
          updateProfileByUserId db u.id
            (some (p.failed_login_attempts.getD 0 + 1))
            (p.account_locked ||
              decide (5 ≤ p.failed_login_attempts.getD 0 + 1))
        else db) := by
  simp only [Auth.handleSubmit, hu, hp]
  split
  · simp_all
  · split <;> rfl

/-- On the invalid-credentials path with both records found, the message is
the locked toast when the computed flag is raised, otherwise the
remaining-attempts toast. -/
theorem auth_invalid_found_msg {db : DB} {email : String} {u : UserRow}
    {p : Profile} (wk : Bool)
    (hu : findUserByEmail db email = some u)
    (hp : findProfileByUserId db u.id = some p) :
    (Auth.handleSubmit db email true true AuthResult.invalidCredentials wk).msg
      = (if p.account_locked ||
            decide (5 ≤ p.failed_login_attempts.getD 0 + 1) then
          Msg.accountLocked
        else
          Msg.incorrectRemaining (5 - (p.failed_login_attempts.getD 0 + 1))) := by
  simp only [Auth.handleSubmit, hu, hp]
  split
  · simp_all
  · split <;> simp_all

/-- The successful sign-in path resets counter and lock flag of the
authenticated user's rows (when the write lands). -/
theorem auth_ok_eq (db : DB) (email : String) (uid : Nat) (wk : Bool) :
    Auth.handleSubmit db email true true (AuthResult.ok (some uid)) wk
      = ⟨if wk then updateProfileByUserId db uid (some 0) false else db,
          Msg.success, 1, 0, 0, 1⟩ := rfl

/-! ### The single-account scenario store -/

theorem findUser_one (c : Option Nat) (l : Bool) :
    findUserByEmail (oneAccountDB c l) "a@x.com" = some ⟨10, "a@x.com"⟩ := rfl

theorem findProfile_one (c : Option Nat) (l : Bool) :
    findProfileByUserId (oneAccountDB c l) 10
      = some ⟨1, 10, "a@x.com", "Ana", "", c, l⟩ := rfl

theorem update_one (c : Option Nat) (l : Bool) (a : Option Nat) (lk : Bool) :
    updateProfileByUserId (oneAccountDB c l) 10 a lk = oneAccountDB a lk := rfl

theorem or_decide_succ (n : Nat) :
    (decide (5 ≤ n) || decide (5 ≤ n + 1)) = decide (5 ≤ n + 1) := by
  by_cases h : 5 ≤ n
  · have h2 : 5 ≤ n + 1 := Nat.le_succ_of_le h
    simp [h, h2]
  · simp [h]

/-- After `n` consecutive failed attempts from a fresh account the stored
counter is `n` and the lock flag is raised exactly when `n ≥ 5`. -/
theorem failN_eq (n : Nat) :
    failN n = oneAccountDB (some n) (decide (5 ≤ n)) := by
  induction n with
  | zero => rfl
  | succ n ih =>
    show (Auth.handleSubmit (failN n) "a@x.com" true true
        AuthResult.invalidCredentials true).db = _
    rw [ih, auth_invalid_found_db true (findUser_one (some n) (decide (5 ≤ n)))
      (findProfile_one (some n) (decide (5 ≤ n)))]
    simp only [Option.getD_some, if_true]
    rw [update_one, or_decide_succ]

theorem forall₂_self_of {α : Type} {P : α → α → Prop} (h : ∀ x, P x x) :
    ∀ l : List α, List.Forall₂ P l l := by
  intro l
  induction l with
  | nil => exact List.Forall₂.nil
  | cons a t ih => exact List.Forall₂.cons (h a) ih

theorem forall₂_map_of_mem {α : Type} {P : α → α → Prop} {f : α → α}
    {l : List α} (h : ∀ x ∈ l, P x (f x)) : List.Forall₂ P l (l.map f) := by
  induction l with
  | nil => exact List.Forall₂.nil
  | cons a t ih =>
    exact List.Forall₂.cons (h a (List.mem_cons_self a t))
      (ih fun x hx => h x (List.mem_cons_of_mem a hx))

theorem auth_ok_db_true (db : DB) (email : String) (uid : Nat) :
    (Auth.handleSubmit db email true true (AuthResult.ok (some uid)) true).db
      = updateProfileByUserId db uid (some 0) false := rfl

theorem auth_invalid_nouser (db : DB) (email : String) (wk : Bool)
    (hu : findUserByEmail db email = none) :
    Auth.handleSubmit db email true true AuthResult.invalidCredentials wk
      = ⟨db, Msg.incorrectGeneric, 1, 1, 0, 0⟩ := by
  simp [Auth.handleSubmit, hu]

theorem auth_invalid_noprofile (db : DB) (email : String) (u : UserRow)
    (wk : Bool) (hu : findUserByEmail db email = some u)
    (hp : findProfileByUserId db u.id = none) :
    Auth.handleSubmit db email true true AuthResult.invalidCredentials wk
      = ⟨db, Msg.silent, 1, 1, 1, 0⟩ := by
  simp [Auth.handleSubmit, hu, hp]

theorem auth_invalid_found_writes {db : DB} {email : String} {u : UserRow}
    {p : Profile} (wk : Bool)
    (hu : findUserByEmail db email = some u)
    (hp : findProfileByUserId db u.id = some p) :
    (Auth.handleSubmit db email true true
      AuthResult.invalidCredentials wk).profileWrites = 1 := by
  simp only [Auth.handleSubmit, hu, hp]
  split
  · simp_all
  · split <;> rfl

theorem reset_ok_eq (db : DB) (pw : String) (uid : Nat) :
    ResetPassword.handleSubmit db pw pw true (UpdateUserResult.ok (some uid))
      = ⟨updateProfileByUserId db uid (some 0) false,
          ResetMsg.success, 1, 1⟩ := by
  unfold ResetPassword.handleSubmit
  rw [if_neg (fun h => h rfl)]
  rfl

theorem reset_err_db (db : DB) (pw cpw : String) (pv : Bool) :
    (ResetPassword.handleSubmit db pw cpw pv UpdateUserResult.err).db = db := by
  unfold ResetPassword.handleSubmit
  by_cases h : pw ≠ cpw
  · rw [if_pos h]
  · rw [if_neg h]
    cases pv <;> rfl

/-- Any row of the store updated under key `uid` that carries `user_id = uid`
holds exactly the written column values. -/
theorem update_row_fields (db : DB) (uid : Nat) (a : Option Nat) (lk : Bool)
    (q : Profile) (hq : q ∈ (updateProfileByUserId db uid a lk).profiles)
    (hid : q.user_id = uid) :
    q.failed_login_attempts = a ∧ q.account_locked = lk := by
  unfold updateProfileByUserId at hq
  simp only [List.mem_map] at hq
  obtain ⟨x, hx, hfx⟩ := hq
  by_cases hxid : (x.user_id == uid) = true
  · rw [if_pos hxid] at hfx
    rw [← hfx]
    exact ⟨rfl, rfl⟩
  · rw [if_neg hxid] at hfx
    rw [← hfx] at hid
    exact absurd (by simp [hid]) hxid

/-- The unlock invariant relation between an old row and the row the keyed
update leaves behind, provided a raised-to-lowered flag write carries a zero
counter. -/
theorem forall₂_unlock_update (db : DB) (uid : Nat) (a : Option Nat)
    (lk : Bool) (ha : lk = false → a = some 0) :
    List.Forall₂
      (fun o q => o.account_locked = true → q.account_locked = false →
        q.failed_login_attempts = some 0)
      db.profiles (updateProfileByUserId db uid a lk).profiles := by
  apply forall₂_map_of_mem
  intro x hx
  by_cases hxid : (x.user_id == uid) = true
  · rw [if_pos hxid]
    intro h1 h2
    exact ha h2
  · rw [if_neg hxid]
    intro h1 h2
    simp [h1] at h2

/-- In the unnamed Auth-page variant (and only there), a locked account is
rejected with the account-locked message before the credential check, whatever
the verification outcome would have been.  The handler the application mounts
(`Auth.handleSubmit`) has no such pre-check. -/
theorem authAlt_locked_rejected_before_verify (db : DB) (email : String)
    (auth : AuthResult) (wk : Bool) (p : Profile)
    (hp : findProfileByEmail db email = some p)
    (hl : p.account_locked = true) :
    AuthAlt.handleSubmit db email true true auth wk
      = ⟨db, Msg.accountLocked, 0, 0, 1, 0⟩ := by
  simp [AuthAlt.handleSubmit, hp, hl]

/-! ### Claim theorems -/

/-- Claim C1 (amended): starting from a fresh account (counter 0, unlocked),
after exactly 5 consecutive failed sign-in attempts the stored lock flag is
true and not before (`decide (5 ≤ n)`), and every subsequent failed sign-in
attempt is rejected with the account-locked message; however a sign-in attempt
with correct credentials on the locked account is not rejected: it succeeds
and resets the stored state to counter 0, unlocked. -/
theorem lockout_threshold_and_correct_password_unlocks (n : Nat) :
    (failN n).profiles
        = [⟨1, 10, "a@x.com", "Ana", "", some n, decide (5 ≤ n)⟩]
    ∧ (5 ≤ n →
        (Auth.handleSubmit (failN n) "a@x.com" true true
          AuthResult.invalidCredentials true).msg = Msg.accountLocked)
    ∧ (5 ≤ n →
        (Auth.handleSubmit (failN n) "a@x.com" true true
            (AuthResult.ok (some 10)) true).msg = Msg.success
        ∧ (Auth.handleSubmit (failN n) "a@x.com" true true
            (AuthResult.ok (some 10)) true).db.profiles
            = [⟨1, 10, "a@x.com", "Ana", "", some 0, false⟩]) := by
  refine ⟨?_, ?_, ?_⟩
  · rw [failN_eq]
    rfl
  · intro h
    rw [failN_eq, auth_invalid_found_msg true
      (findUser_one (some n) (decide (5 ≤ n)))
      (findProfile_one (some n) (decide (5 ≤ n)))]
    have h1 : decide (5 ≤ n) = true := decide_eq_true h
    simp [h1]
  · intro h
    rw [failN_eq]
    exact ⟨rfl, rfl⟩

/-- Witness for claim C1's amended theorem at `n = 5`. -/
theorem lockout_threshold_witness :
    5 ≤ 5
    ∧ (Auth.handleSubmit (failN 5) "a@x.com" true true
        AuthResult.invalidCredentials true).msg = Msg.accountLocked
    ∧ (Auth.handleSubmit (failN 5) "a@x.com" true true
        (AuthResult.ok (some 10)) true).msg = Msg.success :=
  ⟨by decide,
    (lockout_threshold_and_correct_password_unlocks 5).2.1 (by decide),
    ((lockout_threshold_and_correct_password_unlocks 5).2.2 (by decide)).1⟩

/-- Counterexample to claim C1 as stated: after 5 consecutive failed attempts
the account is locked (counter 5, flag true), yet the next attempt with
correct credentials is not rejected with the account-locked message — it
succeeds and leaves the account unlocked with counter 0. -/
theorem locked_account_correct_password_succeeds :
    (failN 5).profiles = [⟨1, 10, "a@x.com", "Ana", "", some 5, true⟩]
    ∧ (Auth.handleSubmit (failN 5) "a@x.com" true true
        (AuthResult.ok (some 10)) true).msg = Msg.success
    ∧ (Auth.handleSubmit (failN 5) "a@x.com" true true
        (AuthResult.ok (some 10)) true).msg ≠ Msg.accountLocked
    ∧ (Auth.handleSubmit (failN 5) "a@x.com" true true
        (AuthResult.ok (some 10)) true).db.profiles
        = [⟨1, 10, "a@x.com", "Ana", "", some 0, false⟩] := by
  decide

/-- Claim C2: when verification fails and both the user row and the profile
row are found, the stored counter is incremented by exactly one (a null
counter read as 0); the stored flag is the prior flag, raised to true exactly
when the incremented counter reaches 5. -/
theorem failed_attempt_increments_counter_and_locks_at_five
    (db : DB) (email : String) (u : UserRow) (p : Profile)
    (hu : findUserByEmail db email = some u)
    (hp : findProfileByUserId db u.id = some p) :
    findProfileByUserId
        (Auth.handleSubmit db email true true
          AuthResult.invalidCredentials true).db u.id
      = some { p with
          failed_login_attempts := some (p.failed_login_attempts.getD 0 + 1),
          account_locked :=
            p.account_locked ||
              decide (5 ≤ p.failed_login_attempts.getD 0 + 1) }
    ∧ (5 ≤ p.failed_login_attempts.getD 0 + 1 →
        (p.account_locked ||
          decide (5 ≤ p.failed_login_attempts.getD 0 + 1)) = true)
    ∧ (p.failed_login_attempts.getD 0 + 1 < 5 →
        (p.account_locked ||
          decide (5 ≤ p.failed_login_attempts.getD 0 + 1))
          = p.account_locked) := by
  refine ⟨?_, ?_, ?_⟩
  · rw [auth_invalid_found_db true hu hp, if_pos rfl]
    exact findProfile_after_update hp _ _
  · intro h
    simp [h]
  · intro h
    have h2 : ¬ 5 ≤ p.failed_login_attempts.getD 0 + 1 := Nat.not_le.mpr h
    simp [h2]

/-- Witness for claim C2 at a concrete store (counter 1, unlocked). -/
theorem failed_attempt_increments_witness :
    findUserByEmail (oneAccountDB (some 1) false) "a@x.com"
        = some ⟨10, "a@x.com"⟩
    ∧ findProfileByUserId (oneAccountDB (some 1) false) 10
        = some ⟨1, 10, "a@x.com", "Ana", "", some 1, false⟩
    ∧ findProfileByUserId
        (Auth.handleSubmit (oneAccountDB (some 1) false) "a@x.com" true true
          AuthResult.invalidCredentials true).db 10
        = some ⟨1, 10, "a@x.com", "Ana", "", some 2, false⟩ := by
  refine ⟨by decide, by decide, ?_⟩
  exact (failed_attempt_increments_counter_and_locks_at_five
    (oneAccountDB (some 1) false) "a@x.com" ⟨10, "a@x.com"⟩
    ⟨1, 10, "a@x.com", "Ana", "", some 1, false⟩ (by decide) (by decide)).1

/-- Claim C3: after a sign-in whose credential verification succeeds (and
whose reset write lands in the store), every stored profile row of the
authenticated account has counter 0 and lock flag false, whatever the prior
(counter, locked) value was. -/
theorem successful_signin_resets_state (db : DB) (email : String) (uid : Nat)
    (q : Profile)
    (hq : q ∈ (Auth.handleSubmit db email true true
        (AuthResult.ok (some uid)) true).db.profiles)
    (hid : q.user_id = uid) :
    q.failed_login_attempts = some 0 ∧ q.account_locked = false := by
  rw [auth_ok_db_true] at hq
  unfold updateProfileByUserId at hq
  simp only [List.mem_map] at hq
  obtain ⟨x, hx, hfx⟩ := hq
  by_cases hxid : (x.user_id == uid) = true
  · rw [if_pos hxid] at hfx
    rw [← hfx]
    exact ⟨rfl, rfl⟩
  · rw [if_neg hxid] at hfx
    rw [← hfx] at hid
    exact absurd (by simp [hid]) hxid

/-- Witness for claim C3: a previously locked account with counter 4. -/
theorem successful_signin_resets_witness :
    ((⟨1, 10, "a@x.com", "Ana", "", some 0, false⟩ : Profile)
        ∈ (Auth.handleSubmit (oneAccountDB (some 4) true) "a@x.com" true true
            (AuthResult.ok (some 10)) true).db.profiles)
    ∧ (⟨1, 10, "a@x.com", "Ana", "", some 0, false⟩ : Profile).user_id = 10
    ∧ (⟨1, 10, "a@x.com", "Ana", "", some 0, false⟩ :
        Profile).failed_login_attempts = some 0
    ∧ (⟨1, 10, "a@x.com", "Ana", "", some 0, false⟩ :
        Profile).account_locked = false := by
  refine ⟨by decide, by decide, ?_⟩
  exact successful_signin_resets_state (oneAccountDB (some 4) true) "a@x.com"
    10 ⟨1, 10, "a@x.com", "Ana", "", some 0, false⟩ (by decide) (by decide)

/-- Claim C7: a submission whose email fails the client-side schema check is
reported as invalid input and the handler returns at once: no credential
verification, no table read, no write, and the store is unchanged. -/
theorem invalid_email_short_circuits (db : DB) (email : String)
    (passwordValid : Bool) (auth : AuthResult) (writeOk : Bool) :
    Auth.handleSubmit db email false passwordValid auth writeOk
      = ⟨db, Msg.invalidInput, 0, 0, 0, 0⟩ := rfl

/-- Claim C9: the failed-verification branch never clears the lock flag: if
the profile read is locked, every row of that account that the attempt leaves
in the store is still locked. -/
theorem failed_attempt_never_clears_lock
    (db : DB) (email : String) (u : UserRow) (p : Profile)
    (hu : findUserByEmail db email = some u)
    (hp : findProfileByUserId db u.id = some p)
    (hl : p.account_locked = true) (q : Profile)
    (hq : q ∈ (Auth.handleSubmit db email true true
        AuthResult.invalidCredentials true).db.profiles)
    (hqid : q.user_id = u.id) :
    q.account_locked = true := by
  rw [auth_invalid_found_db true hu hp, if_pos rfl] at hq
  unfold updateProfileByUserId at hq
  simp only [List.mem_map] at hq
  obtain ⟨x, hx, hfx⟩ := hq
  by_cases hxid : (x.user_id == u.id) = true
  · rw [if_pos hxid] at hfx
    rw [← hfx]
    show (p.account_locked ||
      decide (5 ≤ p.failed_login_attempts.getD 0 + 1)) = true
    simp [hl]
  · rw [if_neg hxid] at hfx
    rw [← hfx] at hqid
    exact absurd (by simp [hqid]) hxid

/-- Witness for claim C9: a locked account with counter 5 stays locked after
one more failed attempt. -/
theorem failed_attempt_never_clears_lock_witness :
    findUserByEmail (oneAccountDB (some 5) true) "a@x.com"
        = some ⟨10, "a@x.com"⟩
    ∧ ((⟨1, 10, "a@x.com", "Ana", "", some 6, true⟩ : Profile)
        ∈ (Auth.handleSubmit (oneAccountDB (some 5) true) "a@x.com" true true
            AuthResult.invalidCredentials true).db.profiles)
    ∧ (⟨1, 10, "a@x.com", "Ana", "", some 6, true⟩ :
        Profile).account_locked = true := by
  refine ⟨by decide, by decide, ?_⟩
  exact failed_attempt_never_clears_lock (oneAccountDB (some 5) true)
    "a@x.com" ⟨10, "a@x.com"⟩ ⟨1, 10, "a@x.com", "Ana", "", some 5, true⟩
    (by decide) (by decide) (by decide)
    ⟨1, 10, "a@x.com", "Ana", "", some 6, true⟩ (by decide) (by decide)

/-- Claim C4: a successful completion of the password-reset operation (the
external password update succeeds and returns the user) leaves every stored
row of that account with counter 0 and lock flag false, for any prior state;
a failed password update leaves the whole store unchanged. -/
theorem password_reset_clears_lockout (db : DB) (pw : String) (uid : Nat) :
    (∀ q ∈ (ResetPassword.handleSubmit db pw pw true
        (UpdateUserResult.ok (some uid))).db.profiles,
      q.user_id = uid →
        q.failed_login_attempts = some 0 ∧ q.account_locked = false)
    ∧ (ResetPassword.handleSubmit db pw pw true UpdateUserResult.err).db
        = db := by
  constructor
  · intro q hq hid
    rw [reset_ok_eq] at hq
    exact update_row_fields db uid (some 0) false q hq hid
  · exact reset_err_db db pw pw true

/-- Witness for claim C4 on a locked account with counter 5. -/
theorem password_reset_clears_lockout_witness :
    ((⟨1, 10, "a@x.com", "Ana", "", some 0, false⟩ : Profile)
        ∈ (ResetPassword.handleSubmit (oneAccountDB (some 5) true) "secret123"
            "secret123" true (UpdateUserResult.ok (some 10))).db.profiles)
    ∧ (⟨1, 10, "a@x.com", "Ana", "", some 0, false⟩ : Profile).user_id = 10
    ∧ (⟨1, 10, "a@x.com", "Ana", "", some 0, false⟩ :
        Profile).failed_login_attempts = some 0
    ∧ (⟨1, 10, "a@x.com", "Ana", "", some 0, false⟩ :
        Profile).account_locked = false
    ∧ (ResetPassword.handleSubmit (oneAccountDB (some 5) true) "secret123"
        "secret123" true UpdateUserResult.err).db
        = oneAccountDB (some 5) true := by
  refine ⟨by decide, by decide, ?_, ?_, ?_⟩
  · exact ((password_reset_clears_lockout (oneAccountDB (some 5) true)
      "secret123" 10).1
      ⟨1, 10, "a@x.com", "Ana", "", some 0, false⟩ (by decide) (by decide)).1
  · exact ((password_reset_clears_lockout (oneAccountDB (some 5) true)
      "secret123" 10).1
      ⟨1, 10, "a@x.com", "Ana", "", some 0, false⟩ (by decide) (by decide)).2
  · exact (password_reset_clears_lockout (oneAccountDB (some 5) true)
      "secret123" 10).2

/-- Claim C5 (amended): on failed verification, when no `users` row exists for
the supplied email the lockout check is skipped — no profile read, no write —
and the generic incorrect-credentials message is shown; when a `users` row
exists but no `profiles` row does, one profile read is performed (discovering
the absence), no write is performed, and no message is shown. -/
theorem missing_records_signin_behavior (db : DB) (email : String)
    (wk : Bool) :
    (findUserByEmail db email = none →
      Auth.handleSubmit db email true true AuthResult.invalidCredentials wk
        = ⟨db, Msg.incorrectGeneric, 1, 1, 0, 0⟩)
    ∧ (∀ u, findUserByEmail db email = some u →
        findProfileByUserId db u.id = none →
        Auth.handleSubmit db email true true AuthResult.invalidCredentials wk
          = ⟨db, Msg.silent, 1, 1, 1, 0⟩) := by
  exact ⟨auth_invalid_nouser db email wk,
    fun u hu hp => auth_invalid_noprofile db email u wk hu hp⟩

/-- Witness for claim C5's amended theorem: an empty store, and a store with a
`users` row but no `profiles` row. -/
theorem missing_records_signin_witness :
    findUserByEmail ⟨[], []⟩ "a@x.com" = none
    ∧ Auth.handleSubmit ⟨[], []⟩ "a@x.com" true true
        AuthResult.invalidCredentials true
        = ⟨⟨[], []⟩, Msg.incorrectGeneric, 1, 1, 0, 0⟩
    ∧ findUserByEmail userOnlyDB ("a@x.com") = some ⟨10, "a@x.com"⟩
    ∧ findProfileByUserId userOnlyDB 10 = none
    ∧ Auth.handleSubmit userOnlyDB ("a@x.com") true true
        AuthResult.invalidCredentials true
        = ⟨userOnlyDB, Msg.silent, 1, 1, 1, 0⟩ := by
  refine ⟨by decide, ?_, by decide, by decide, ?_⟩
  · exact (missing_records_signin_behavior ⟨[], []⟩ "a@x.com" true).1
      (by decide)
  · exact (missing_records_signin_behavior userOnlyDB ("a@x.com") true).2
      ⟨10, "a@x.com"⟩ (by decide) (by decide)

/-- Counterexample to claim C5 as stated: with a `users` row for the email but
no `profiles` row — so no profile record exists for the supplied email — a
failed attempt still performs one profile read, and shows no message at all
rather than the generic incorrect-credentials one. -/
theorem missing_profile_read_and_silent :
    (Auth.handleSubmit userOnlyDB ("a@x.com") true true
        AuthResult.invalidCredentials true).profileReads = 1
    ∧ (Auth.handleSubmit userOnlyDB ("a@x.com") true true
        AuthResult.invalidCredentials true).msg = Msg.silent
    ∧ (Auth.handleSubmit userOnlyDB ("a@x.com") true true
        AuthResult.invalidCredentials true).msg ≠ Msg.incorrectGeneric := by
  decide

/-- Claim C6: the message shown and the number of attempted profile writes do
not depend on whether the persisted update lands, and at most one write is
ever attempted per sign-in submission (no retry). -/
theorem signin_outcome_independent_of_write_result
    (db : DB) (email : String) (ev pv : Bool) (auth : AuthResult)
    (w1 w2 : Bool) :
    (Auth.handleSubmit db email ev pv auth w1).msg
        = (Auth.handleSubmit db email ev pv auth w2).msg
    ∧ (Auth.handleSubmit db email ev pv auth w1).profileWrites
        = (Auth.handleSubmit db email ev pv auth w2).profileWrites
    ∧ (Auth.handleSubmit db email ev pv auth w1).profileWrites ≤ 1 := by
  cases ev with
  | false => exact ⟨rfl, rfl, Nat.zero_le 1⟩
  | true =>
    cases pv with
    | false => exact ⟨rfl, rfl, Nat.zero_le 1⟩
    | true =>
      cases auth with
      | otherError m => exact ⟨rfl, rfl, Nat.zero_le 1⟩
      | ok uid? =>
        cases uid? with
        | none => exact ⟨rfl, rfl, Nat.zero_le 1⟩
        | some uid => exact ⟨rfl, rfl, Nat.le_refl 1⟩
      | invalidCredentials =>
        rcases hu : findUserByEmail db email with _ | u
        · rw [auth_invalid_nouser db email w1 hu,
            auth_invalid_nouser db email w2 hu]
          exact ⟨rfl, rfl, Nat.zero_le 1⟩
        · rcases hp : findProfileByUserId db u.id with _ | p
          · rw [auth_invalid_noprofile db email u w1 hu hp,
              auth_invalid_noprofile db email u w2 hu hp]
            exact ⟨rfl, rfl, Nat.zero_le 1⟩
          · refine ⟨?_, ?_, ?_⟩
            · rw [auth_invalid_found_msg w1 hu hp,
                auth_invalid_found_msg w2 hu hp]
            · rw [auth_invalid_found_writes w1 hu hp,
                auth_invalid_found_writes w2 hu hp]
            · rw [auth_invalid_found_writes w1 hu hp]

/-- Claim C8: across the operations of the system, any stored row whose lock
flag transitions from true to false carries counter 0 afterwards, and the
write performed on a successful authentication (or a successful password
reset) leaves the account's rows with counter 0. -/
theorem unlock_transition_resets_counter (db : DB) :
    (∀ (email : String) (ev pv : Bool) (auth : AuthResult) (wk : Bool),
      List.Forall₂
        (fun o q => o.account_locked = true → q.account_locked = false →
          q.failed_login_attempts = some 0)
        db.profiles (Auth.handleSubmit db email ev pv auth wk).db.profiles)
    ∧ (∀ (email : String) (uid : Nat) (q : Profile),
        q ∈ (Auth.handleSubmit db email true true
            (AuthResult.ok (some uid)) true).db.profiles →
        q.user_id = uid → q.failed_login_attempts = some 0)
    ∧ (∀ (pw cpw : String) (pv : Bool) (upd : UpdateUserResult),
      List.Forall₂
        (fun o q => o.account_locked = true → q.account_locked = false →
          q.failed_login_attempts = some 0)
        db.profiles
        (ResetPassword.handleSubmit db pw cpw pv upd).db.profiles)
    ∧ (∀ (pw : String) (uid : Nat) (q : Profile),
        q ∈ (ResetPassword.handleSubmit db pw pw true
            (UpdateUserResult.ok (some uid))).db.profiles →
        q.user_id = uid → q.failed_login_attempts = some 0) := by
  have hself : ∀ x : Profile,
      x.account_locked = true → x.account_locked = false →
        x.failed_login_attempts = some 0 := by
    intro x h1 h2
    simp [h1] at h2
  refine ⟨?_, ?_, ?_, ?_⟩
  · intro email ev pv auth wk
    cases ev with
    | false => exact forall₂_self_of hself db.profiles
    | true =>
      cases pv with
      | false => exact forall₂_self_of hself db.profiles
      | true =>
        cases auth with
        | otherError m => exact forall₂_self_of hself db.profiles
        | ok uid? =>
          cases uid? with
          | none => exact forall₂_self_of hself db.profiles
          | some uid =>
            cases wk with
            | false => exact forall₂_self_of hself db.profiles
            | true =>
              exact forall₂_unlock_update db uid (some 0) false fun _ => rfl
        | invalidCredentials =>
          rcases hu : findUserByEmail db email with _ | u
          · rw [auth_invalid_nouser db email wk hu]
            exact forall₂_self_of hself db.profiles
          · rcases hp : findProfileByUserId db u.id with _ | p
            · rw [auth_invalid_noprofile db email u wk hu hp]
              exact forall₂_self_of hself db.profiles
            · have hdb := auth_invalid_found_db wk hu hp
              cases wk with
              | false =>
                rw [hdb]
                exact forall₂_self_of hself db.profiles
              | true =>
                rw [hdb]
                apply forall₂_map_of_mem
                intro x hx
                by_cases hxid : (x.user_id == u.id) = true
                · rw [if_pos hxid]
                  intro h1 h2
                  have hxp : x = p := eq_of_matches_found hp hx hxid
                  rw [hxp] at h1
                  simp [h1] at h2
                · rw [if_neg hxid]
                  intro h1 h2
                  simp [h1] at h2
  · intro email uid q hq hid
    rw [auth_ok_db_true] at hq
    exact (update_row_fields db uid (some 0) false q hq hid).1
  · intro pw cpw pv upd
    unfold ResetPassword.handleSubmit
    by_cases hms : pw ≠ cpw
    · rw [if_pos hms]
      exact forall₂_self_of hself db.profiles
    · rw [if_neg hms]
      cases pv with
      | false => exact forall₂_self_of hself db.profiles
      | true =>
        cases upd with
        | err => exact forall₂_self_of hself db.profiles
        | ok uid? =>
          cases uid? with
          | none => exact forall₂_self_of hself db.profiles
          | some uid =>
            exact forall₂_unlock_update db uid (some 0) false fun _ => rfl
  · intro pw uid q hq hid
    rw [reset_ok_eq] at hq
    exact (update_row_fields db uid (some 0) false q hq hid).1

/-- Witness for claim C8: the reset on a locked account with counter 3 leaves
the row unlocked with counter 0. -/
theorem unlock_transition_resets_counter_witness :
    ((⟨1, 10, "a@x.com", "Ana", "", some 0, false⟩ : Profile)
        ∈ (ResetPassword.handleSubmit (oneAccountDB (some 3) true) "secret123"
            "secret123" true (UpdateUserResult.ok (some 10))).db.profiles)
    ∧ (⟨1, 10, "a@x.com", "Ana", "", some 0, false⟩ : Profile).user_id = 10
    ∧ (⟨1, 10, "a@x.com", "Ana", "", some 0, false⟩ :
        Profile).failed_login_attempts = some 0 := by
  refine ⟨by decide, by decide, ?_⟩
  exact (unlock_transition_resets_counter (oneAccountDB (some 3) true)).2.2.2
    "secret123" 10 ⟨1, 10, "a@x.com", "Ana", "", some 0, false⟩
    (by decide) (by decide)

/-- Claim C10: each handler run touches at most one account: the `users`
table is unchanged, every profile row keeps all its non-lockout columns, and
the rows of every account other than the targeted one are unchanged
entirely. -/
theorem profile_writes_frame_condition (db : DB) :
    (∀ (email : String) (ev pv : Bool) (auth : AuthResult) (wk : Bool),
      ∃ tid,
        (Auth.handleSubmit db email ev pv auth wk).db.users = db.users
        ∧ List.Forall₂ (onlyLockColumnsChanged tid)
            db.profiles (Auth.handleSubmit db email ev pv auth wk).db.profiles)
    ∧ (∀ (pw cpw : String) (pv : Bool) (upd : UpdateUserResult),
      ∃ tid,
        (ResetPassword.handleSubmit db pw cpw pv upd).db.users = db.users
        ∧ List.Forall₂ (onlyLockColumnsChanged tid) db.profiles
            (ResetPassword.handleSubmit db pw cpw pv upd).db.profiles) := by
  have hself : ∀ tid, ∀ x : Profile, onlyLockColumnsChanged tid x x :=
    fun tid x => ⟨rfl, rfl, rfl, rfl, rfl, fun _ => rfl⟩
  have hupd : ∀ (uid : Nat) (a : Option Nat) (lk : Bool),
      List.Forall₂ (onlyLockColumnsChanged uid) db.profiles
        (updateProfileByUserId db uid a lk).profiles := by
    intro uid a lk
    apply forall₂_map_of_mem
    intro x hx
    by_cases hxid : (x.user_id == uid) = true
    · rw [if_pos hxid]
      refine ⟨rfl, rfl, rfl, rfl, rfl, fun h => ?_⟩
      exact absurd (by simpa using hxid) h
    · rw [if_neg hxid]
      exact hself uid x
  constructor
  · intro email ev pv auth wk
    cases ev with
    | false => exact ⟨0, rfl, forall₂_self_of (hself 0) db.profiles⟩
    | true =>
      cases pv with
      | false => exact ⟨0, rfl, forall₂_self_of (hself 0) db.profiles⟩
      | true =>
        cases auth with
        | otherError m => exact ⟨0, rfl, forall₂_self_of (hself 0) db.profiles⟩
        | ok uid? =>
          cases uid? with
          | none => exact ⟨0, rfl, forall₂_self_of (hself 0) db.profiles⟩
          | some uid =>
            cases wk with
            | false => exact ⟨0, rfl, forall₂_self_of (hself 0) db.profiles⟩
            | true => exact ⟨uid, rfl, hupd uid (some 0) false⟩
        | invalidCredentials =>
          rcases hu : findUserByEmail db email with _ | u
          · rw [auth_invalid_nouser db email wk hu]
            exact ⟨0, rfl, forall₂_self_of (hself 0) db.profiles⟩
          · rcases hp : findProfileByUserId db u.id with _ | p
            · rw [auth_invalid_noprofile db email u wk hu hp]
              exact ⟨0, rfl, forall₂_self_of (hself 0) db.profiles⟩
            · have hdb := auth_invalid_found_db wk hu hp
              cases wk with
              | false =>
                refine ⟨0, ?_, ?_⟩ <;> rw [hdb]
                · rfl
                · exact forall₂_self_of (hself 0) db.profiles
              | true =>
                refine ⟨u.id, ?_, ?_⟩ <;> rw [hdb]
                · rfl
                · exact hupd u.id _ _
  · intro pw cpw pv upd
    unfold ResetPassword.handleSubmit
    by_cases hms : pw ≠ cpw
    · rw [if_pos hms]
      exact ⟨0, rfl, forall₂_self_of (hself 0) db.profiles⟩
    · rw [if_neg hms]
      cases pv with
      | false => exact ⟨0, rfl, forall₂_self_of (hself 0) db.profiles⟩
      | true =>
        cases upd with
        | err => exact ⟨0, rfl, forall₂_self_of (hself 0) db.profiles⟩
        | ok uid? =>
          cases uid? with
          | none => exact ⟨0, rfl, forall₂_self_of (hself 0) db.profiles⟩
          | some uid => exact ⟨uid, rfl, hupd uid (some 0) false⟩

/-- Witness for claim C10: one failed attempt on a two-account store changes
nothing but the targeted account's lockout columns. -/
theorem profile_writes_frame_condition_witness :
    (Auth.handleSubmit twoAccountDB ("a@x.com") true true
        AuthResult.invalidCredentials true).db.users = twoAccountDB.users
    ∧ (Auth.handleSubmit twoAccountDB ("a@x.com") true true
        AuthResult.invalidCredentials true).db.profiles
        = [⟨1, 10, "a@x.com", "Ana", "", some 2, false⟩,
            ⟨2, 20, "b@x.com", "Bia", "", some 2, false⟩] := by
  constructor
  · obtain ⟨tid, h1, h2⟩ := (profile_writes_frame_condition twoAccountDB).1
      "a@x.com" true true AuthResult.invalidCredentials true
    exact h1
  · decide

end GideonFinance
